import Mathlib

/-!
Shallow embedding of the Flipkart stock notifier (src/main.py and
src/notifier.py).

The stock checkers are pure functions of the network outcomes they observe:
an outcome value stands for what the single HTTP attempt of the call
returned (a transport failure class, or the fetched body).  The regular
expression searches of notifier.py are embedded as executable scanners over
lists of characters with the same leftmost-match, lazy-group and
case-insensitive semantics as the patterns used in the source.
-/

/-- ASCII whitespace, the character class matched by the regex whitespace
shorthand and stripped by the Python strip method. -/
def isSpaceChar (c : Char) : Bool :=
  c == ' ' || c == '\t' || c == '\n' || c == '\r' || c == '\x0b' || c == '\x0c'

/-- Lowercase every character, used to model case-insensitive matching. -/
def lcLower (s : List Char) : List Char := s.map Char.toLower

/-- Does the pattern occur as a prefix of the text. -/
def isPrefixL : List Char → List Char → Bool
  | [], _ => true
  | _ :: _, [] => false
  | p :: ps, t :: ts => p == t && isPrefixL ps ts

/-- Does the pattern occur anywhere in the text (substring search). -/
def containsL (pat : List Char) : List Char → Bool
  | [] => isPrefixL pat []
  | c :: ts => isPrefixL pat (c :: ts) || containsL pat ts

/-- Index of the first occurrence of the pattern in the text, if any. -/
def findIdx (pat : List Char) : List Char → Option Nat
  | [] => if isPrefixL pat [] then some 0 else none
  | c :: ts =>
    if isPrefixL pat (c :: ts) then some 0
    else (findIdx pat ts).map (fun n => n + 1)

/-- Drop leading whitespace, the effect of a greedy whitespace star when the
following regex atom cannot match a whitespace character. -/
def skipWs (s : List Char) : List Char := s.dropWhile isSpaceChar

/-- Strip whitespace from both ends, the Python strip method. -/
def stripL (s : List Char) : List Char :=
  ((s.dropWhile isSpaceChar).reverse.dropWhile isSpaceChar).reverse

/-- Text before the first occurrence of the separator, the whole text when
the separator is absent: the head of a Python split. -/
def takeBefore (sep text : List Char) : List Char :=
  match findIdx sep text with
  | none => text
  | some i => text.take i

/-- Does the predicate hold at some suffix of the text: existence of a regex
match at some starting position. -/
def existsAt (p : List Char → Bool) : List Char → Bool
  | [] => p []
  | c :: ts => p (c :: ts) || existsAt p ts

/-- Python title casing on ASCII text: a letter is uppercased when the
previous character is not a letter and lowercased otherwise. -/
def pyTitleAux : Bool → List Char → List Char
  | _, [] => []
  | prevCased, c :: cs =>
    if c.isAlpha then
      (if prevCased then c.toLower else c.toUpper) :: pyTitleAux true cs
    else
      c :: pyTitleAux false cs

/-- Python split on a single character: n separators give n plus one parts. -/
def splitOnChar (sep : Char) : List Char → List (List Char)
  | [] => [[]]
  | c :: ts =>
    let rest := splitOnChar sep ts
    if c == sep then [] :: rest
    else
      match rest with
      | [] => [[c]]
      | r :: rs => (c :: r) :: rs

/-- Label derived from the product URL: the path segment before the trailing
identifier with hyphens replaced by spaces and title-cased, used when the URL
holds more than three slashes, else the given placeholder
(notifier.py lines 81 and 194). -/
def urlDerivedName (product_url : String) (placeholder : String) : String :=
  if product_url.data.count '/' > 3 then
    let parts := splitOnChar '/' product_url.data
    String.mk (pyTitleAux false
      ((parts.getD (parts.length - 2) []).map (fun c => if c == '-' then ' ' else c)))
  else placeholder

/-- Lazy group between an opening and a closing tag, searched
case-insensitively: the group starts right after the first occurrence of the
opening tag and ends at the first occurrence of the closing tag after it,
exactly the leftmost lazy match of the corresponding regex.  The group keeps
the original casing of the page. -/
def extractTagGroup (openTag closeTag : List Char) (html : List Char) : Option (List Char) :=
  match findIdx openTag (lcLower html) with
  | none => none
  | some i =>
    let afterOpen := i + openTag.length
    match findIdx closeTag ((lcLower html).drop afterOpen) with
    | none => none
    | some j => some ((html.drop afterOpen).take j)

/-- Content of the title element of the page, if any
(notifier.py line 183). -/
def extractTitle (html : String) : Option String :=
  (extractTagGroup ("<title>".data) ("</title>".data) html.data).map String.mk

/-- Stripped content of the known product-title span fragment, if any
(notifier.py lines 190 to 192). -/
def extractSpanName (html : String) : Option String :=
  (extractTagGroup ("<span class=\"b_nuci\">".data) ("</span>".data) html.data).map
    (fun l => String.mk (stripL l))

/-- Title cleaned of trailing site branding: stripped, cut before the first
hyphen-with-spaces delimiter, cut before the first pipe, stripped again
(notifier.py lines 185 to 187). -/
def cleanTitle (fullTitleRaw : String) : String :=
  let fullTitle := stripL fullTitleRaw.data
  String.mk (stripL (takeBefore ("|".data) (takeBefore (" - ".data) fullTitle)))

/-- A cleaned title is generic when it still holds the site name
case-insensitively or is empty (notifier.py line 188). -/
def isGenericName (name : String) : Bool :=
  containsL ("flipkart.com".data) (lcLower name.data) || name.data.isEmpty

/-- Product label extraction of the scrape path (notifier.py lines 181 to
194): prefer the cleaned title; when the cleaned title is generic fall back
to the span fragment, then to the URL derived name; when the page has no
title element at all the label stays the placeholder Unknown Product. -/
def scrape_product_name (html product_url : String) : String :=
  match extractTitle html with
  | none => "Unknown Product"
  | some fullTitle =>
    let product_name := cleanTitle fullTitle
    if isGenericName product_name then
      match extractSpanName html with
      | some n => n
      | none => urlDerivedName product_url "Product"
    else product_name

/-- Match, at the current position, the JSON-LD availability pattern: the
quoted availability key, optional whitespace, a colon, optional whitespace,
then the given quoted target value (notifier.py lines 198 and 213, on
lowercased text). -/
def jsonLdAvailAt (target : List Char) (s : List Char) : Bool :=
  if isPrefixL ("\"availability\"".data) s then
    match skipWs (s.drop 14) with
    | ':' :: r2 => isPrefixL target (skipWs r2)
    | _ => false
  else false

/-- Structured-data marker declaring InStock availability
(notifier.py line 198). -/
def hasJsonLdInStock (html : String) : Bool :=
  existsAt (jsonLdAvailAt ("\"http://schema.org/instock\"".data)) (lcLower html.data)

/-- Structured-data marker declaring OutOfStock availability
(notifier.py line 213). -/
def hasJsonLdOutOfStock (html : String) : Bool :=
  existsAt (jsonLdAvailAt ("\"http://schema.org/outofstock\"".data)) (lcLower html.data)

/-- Sold out or notify me text indicator (notifier.py line 212). -/
def hasSoldOutText (html : String) : Bool :=
  containsL (">sold out<".data) (lcLower html.data)
    || containsL (">notify me<".data) (lcLower html.data)

/-- Styling-class fingerprints of the purchase button
(notifier.py line 205, lowercased). -/
def buttonClassTokens : List (List Char) :=
  [("_2u9uoa".data), ("_2kpz6l".data), ("_2ihvcb".data), ("_3awrsl".data)]

/-- Tail of the button pattern after the button text: optional whitespace, an
optional closing span, optional whitespace, the closing button tag. -/
def btnTail (r : List Char) : Bool :=
  let r1 := skipWs r
  (isPrefixL ("</span>".data) r1 && isPrefixL ("</button>".data) (skipWs (r1.drop 7)))
    || isPrefixL ("</button>".data) r1

/-- Button text alternation: buy now or add to cart, then the tail. -/
def btnText (r : List Char) : Bool :=
  (isPrefixL ("buy now".data) r && btnTail (r.drop 7))
    || (isPrefixL ("add to cart".data) r && btnTail (r.drop 11))

/-- After the closing angle of the opening button tag: optional whitespace,
an optional opening span, optional whitespace, then the button text. -/
def btnAfterGt (r : List Char) : Bool :=
  let r1 := skipWs r
  (isPrefixL ("<span>".data) r1 && btnText (skipWs (r1.drop 6))) || btnText r1

/-- After the closing quote of the class attribute: any characters other
than a closing angle, then the closing angle, then the rest of the
pattern. -/
def btnAfterQuote (r : List Char) : Bool :=
  match r.dropWhile (fun c => c != '>') with
  | '>' :: r2 => btnAfterGt r2
  | _ => false

/-- Class attribute value: the characters up to the first quote must hold
one of the styling-class fingerprints, and the quote must exist. -/
def btnClassValue (t : List Char) : Bool :=
  let v := t.takeWhile (fun c => c != '"')
  match t.drop v.length with
  | '"' :: rest =>
    buttonClassTokens.any (fun tok => containsL tok v) && btnAfterQuote rest
  | _ => false

/-- Scan for the class attribute inside the opening button tag: any
characters other than a closing angle may precede it, every valid starting
position is tried as regex backtracking does. -/
def btnScanClass : List Char → Bool
  | [] => false
  | c :: ts =>
    (isPrefixL ("class=\"".data) (c :: ts) && btnClassValue ((c :: ts).drop 7))
      || (c != '>' && btnScanClass ts)

/-- Match of the second button alternative at the current position: the
opening button literal then the class scan. -/
def btnAt (s : List Char) : Bool :=
  isPrefixL ("<button".data) s && btnScanClass (s.drop 7)

/-- Actionable purchase control: a bare buy now text between angles, or a
button element carrying a known styling-class fingerprint and a buy now or
add to cart caption (notifier.py line 205). -/
def hasBuyButton (html : String) : Bool :=
  containsL (">buy now<".data) (lcLower html.data)
    || existsAt btnAt (lcLower html.data)

/-- Outcome of the single page fetch performed by the scrape path: the
transport failure classes caught at notifier.py lines 224 to 232, or the
fetched body.  For a request error, status is the status code of the
response attached to the exception, none when no response is attached
(connection failures). -/
inductive FetchOutcome where
  | timeout
  | requestError (status : Option Nat)
  | otherError
  | success (html : String)

/-- Classification of a successfully fetched page (notifier.py lines 181 to
222): label extraction, then the four availability signal categories in
priority order with the first match winning, defaulting to out of stock. -/
def check_stock_success (html product_url : String) : Bool × String :=
  let product_name := scrape_product_name html product_url
  if hasJsonLdInStock html then (true, product_name)
  else if hasBuyButton html then (true, product_name)
  else if hasSoldOutText html || hasJsonLdOutOfStock html then (false, product_name)
  else (false, product_name)

/-- The fallback scrape strategy (notifier.py lines 160 to 232) as a function
of the fetch outcome of its one request: transport failures are caught and
turned into an out-of-stock result whose label encodes the failure class,
never thrown and never retried inside the call.  The attached-response
conditional at line 229 uses the truthiness of the response object, which in
the requests library holds exactly when the status code is below 400; the
status raised by the non-2xx check is always at least 400, so its code is
never printed and the generic HTTP Error label is used, as for connection
failures with no attached response. -/
def check_stock (fetch : FetchOutcome) (product_url : String) : Bool × String :=
  match fetch with
  | .timeout => (false, "Error fetching product (Timeout)")
  | .requestError (some code) =>
    if code < 400 then
      (false, "Error fetching product (HTTP " ++ toString code ++ ")")
    else
      (false, "Error fetching product (HTTP Error)")
  | .requestError none => (false, "Error fetching product (HTTP Error)")
  | .otherError => (false, "Error parsing product data")
  | .success html => check_stock_success html product_url

/-- Structured fields the pincode checker reads from the parsed Located API
response.  A field is none when the nested lookup of notifier.py lines 124
and 130 to 133 raises, that is when the key path is absent or an intermediate
node is not indexable. -/
structure ApiData where
  title : Option String
  availabilityStatus : Option String
  isAvailable : Option Bool
  serviceable : Option Bool

/-- Outcome of the single Located API request: the failure classes caught at
notifier.py lines 147 to 158 (timeout, non-2xx raised by the status check,
other request errors, and generic failures such as a body that is not JSON),
or the parsed response. -/
inductive ApiOutcome where
  | timeout
  | httpError (status : Nat)
  | requestError
  | genericError
  | success (data : ApiData)

/-- Default product label of the API path, derived from the URL
(notifier.py line 81). -/
def api_default_name (product_url : String) : String :=
  urlDerivedName product_url "Product via API"

/-- The Located API checker (notifier.py lines 60 to 158) as a function of
the outcome of its one API request and of the fetch outcome its fallback
scrape would observe for the same URL: a conclusive API response decides
stock by the three-way conjunction, every failure falls back to the scrape
strategy on the same URL. -/
def check_stock_with_pincode (api : ApiOutcome) (scrapeFetch : FetchOutcome)
    (product_url : String) : Bool × String :=
  match api with
  | .success d =>
    let product_name_api := d.title.getD (api_default_name product_url)
    match d.availabilityStatus, d.isAvailable, d.serviceable with
    | some availability_status, some is_available, some is_serviceable =>
      if availability_status == "IN_STOCK" && is_available && is_serviceable then
        (true, product_name_api)
      else
        (false, product_name_api)
    | _, _, _ => check_stock scrapeFetch product_url
  | _ => check_stock scrapeFetch product_url

/-- Does the API outcome make the pincode checker fall back to the scrape
strategy: any request failure, or a parsed response in which one of the
three availability fields is missing (notifier.py lines 142 to 158). -/
def api_falls_back : ApiOutcome → Bool
  | .success d =>
    d.availabilityStatus.isNone || d.isAvailable.isNone || d.serviceable.isNone
  | _ => true

/-- Python truthiness of an optional environment string: absent and empty
values are falsy. -/
def pyTruthy : Option String → Bool
  | none => false
  | some s => !s.isEmpty

/-- Environment values read at startup (main.py lines 18 to 22). -/
structure Env where
  telegram_token : Option String
  chat_id : Option String
  product_url : Option String
  scraperapi_key : Option String

/-- What startup does: either log the missing-configuration error and exit,
or enter the monitor loop with the three mandatory values. -/
inductive StartupOutcome where
  | configErrorExit
  | monitorLoop (telegram_token chat_id product_url : String)
deriving DecidableEq

/-- Startup check of main.py lines 24 to 30: when any of the three mandatory
values is missing the program logs an error and returns without entering the
monitor loop, with no retry. -/
def mainStartup (env : Env) : StartupOutcome :=
  if pyTruthy env.telegram_token && pyTruthy env.chat_id && pyTruthy env.product_url then
    .monitorLoop (env.telegram_token.getD "") (env.chat_id.getD "") (env.product_url.getD "")
  else
    .configErrorExit

/-- Observable action of one poll-loop iteration after the stock check
(notifier.py lines 277 to 286). -/
inductive IterAction where
  | sendNotification (product_name product_url : String)
  | logCheckFailed (product_name : String)
  | logNotInStock (product_name : String)
deriving DecidableEq

/-- Branching of one monitor_product iteration on the checker result
(notifier.py lines 277 to 286): notify when in stock, otherwise log a failed
check exactly when the label holds the substring Error, else log out of
stock. -/
def monitor_iteration (checkResult : Bool × String) (product_url : String) : IterAction :=
  if checkResult.fst then .sendNotification checkResult.snd product_url
  else if containsL ("Error".data) checkResult.snd.data then .logCheckFailed checkResult.snd
  else .logNotInStock checkResult.snd

/-- C1: when the Located API response carries all three availability fields,
the pincode checker reports in stock exactly when the availability status is
the literal IN_STOCK and the availability flag and the serviceability flag
are both true; in particular the response with status IN_STOCK and both
flags true yields the pair of true and the title. -/
theorem c1_api_in_stock_conjunction (st : String) (av sv : Bool) (t : Option String)
    (scrapeFetch : FetchOutcome) (product_url title : String) :
    ((check_stock_with_pincode (.success ⟨t, some st, some av, some sv⟩)
        scrapeFetch product_url).fst = true
      ↔ (st = "IN_STOCK" ∧ av = true ∧ sv = true))
    ∧ check_stock_with_pincode
        (.success ⟨some title, some ("IN_STOCK"), some true, some true⟩)
        scrapeFetch product_url = (true, title) := by
  constructor
  · simp only [check_stock_with_pincode]
    split <;> rename_i h <;> simp_all
  · rfl

/-- C2: whenever the Located API attempt fails at transport level or its
parsed response is missing one of the three availability fields, the pincode
checker returns exactly the fallback scrape result for the same URL. -/
theorem c2_fallback_purity (api : ApiOutcome) (scrapeFetch : FetchOutcome)
    (product_url : String) (h : api_falls_back api = true) :
    check_stock_with_pincode api scrapeFetch product_url
      = check_stock scrapeFetch product_url := by
  cases api with
  | success d =>
    obtain ⟨t, avs, av, sv⟩ := d
    cases avs <;> cases av <;> cases sv <;>
      simp_all [api_falls_back, check_stock_with_pincode]
  | timeout => rfl
  | httpError status => rfl
  | requestError => rfl
  | genericError => rfl

/-- C2 witness: a timed-out API call on a concrete page and URL. -/
theorem c2_fallback_purity_witness :
    api_falls_back .timeout = true
    ∧ check_stock_with_pincode .timeout (.success ("<html><title>X</title></html>"))
        ("https://www.flipkart.com/x/p/itm1")
      = check_stock (.success ("<html><title>X</title></html>"))
        ("https://www.flipkart.com/x/p/itm1") :=
  ⟨rfl, c2_fallback_purity .timeout (.success ("<html><title>X</title></html>"))
    ("https://www.flipkart.com/x/p/itm1") rfl⟩

/-- C5: every transport failure of the fallback scrape strategy yields an
out-of-stock result whose label encodes the failure class, and the call
returns a result instead of raising, with no retry inside the call.  A
timeout gets its own label; a non-2xx failure, whose raised status is always
at least 400 and whose attached response is therefore falsy, gets the
generic HTTP Error label, the same one as a connection failure with no
attached response. -/
theorem c5_transport_failure_result (product_url : String) (code : Nat)
    (h : 400 ≤ code) :
    check_stock .timeout product_url = (false, "Error fetching product (Timeout)")
    ∧ check_stock (.requestError (some code)) product_url
        = (false, "Error fetching product (HTTP Error)")
    ∧ check_stock (.requestError none) product_url
        = (false, "Error fetching product (HTTP Error)") :=
  ⟨rfl, by simp [check_stock, Nat.not_lt.mpr h], rfl⟩

/-- C5 witness: a concrete 404 failure beside the timeout and connection
failure cases. -/
theorem c5_transport_failure_result_witness :
    400 ≤ 404
    ∧ (check_stock .timeout ("u") = (false, "Error fetching product (Timeout)")
      ∧ check_stock (.requestError (some 404)) ("u")
          = (false, "Error fetching product (HTTP Error)")
      ∧ check_stock (.requestError none) ("u")
          = (false, "Error fetching product (HTTP Error)")) :=
  ⟨by decide, c5_transport_failure_result ("u") 404 (by decide)⟩

/-- C6: a Located API response with all three fields present whose in-stock
conjunction fails yields the pair of false and the API title directly, and
the result does not depend on what the fallback scrape would have
returned. -/
theorem c6_api_out_of_stock_no_fallback (st : String) (av sv : Bool)
    (t : Option String) (product_url : String) (s1 s2 : FetchOutcome)
    (h : ¬ (st = "IN_STOCK" ∧ av = true ∧ sv = true)) :
    check_stock_with_pincode (.success ⟨t, some st, some av, some sv⟩) s1 product_url
        = (false, t.getD (api_default_name product_url))
    ∧ check_stock_with_pincode (.success ⟨t, some st, some av, some sv⟩) s1 product_url
        = check_stock_with_pincode (.success ⟨t, some st, some av, some sv⟩) s2 product_url := by
  have hcond : (st == "IN_STOCK" && av && sv) = false := by
    cases av <;> cases sv <;> by_cases hst : st = "IN_STOCK" <;> simp_all
  constructor
  · simp [check_stock_with_pincode, hcond]
  · simp [check_stock_with_pincode, hcond]

/-- C6 witness: a concrete out-of-stock API response, checked against two
different fallback outcomes. -/
theorem c6_api_out_of_stock_no_fallback_witness :
    ¬ (("OUT_OF_STOCK" : String) = "IN_STOCK" ∧ false = true ∧ true = true)
    ∧ (check_stock_with_pincode
        (.success ⟨some ("T"), some ("OUT_OF_STOCK"), some false, some true⟩)
        .timeout ("u")
        = (false, (some ("T")).getD (api_default_name ("u")))
      ∧ check_stock_with_pincode
          (.success ⟨some ("T"), some ("OUT_OF_STOCK"), some false, some true⟩)
          .timeout ("u")
        = check_stock_with_pincode
            (.success ⟨some ("T"), some ("OUT_OF_STOCK"), some false, some true⟩)
            (.success ("")) ("u")) :=
  ⟨by decide,
    c6_api_out_of_stock_no_fallback ("OUT_OF_STOCK") false true (some ("T")) ("u")
      .timeout (.success ("")) (by decide)⟩

/-- C3: the scrape classifier applies the four signal categories in strict
priority order with the first match winning, and in particular a page
holding both an InStock structured marker and a sold out text indicator is
classified in stock. -/
theorem c3_priority_order (html product_url : String) :
    (check_stock (.success html) product_url).fst
      = (if hasJsonLdInStock html then true
         else if hasBuyButton html then true
         else if hasSoldOutText html || hasJsonLdOutOfStock html then false
         else false)
    ∧ (check_stock
        (.success ("<p>\"availability\":\"http://schema.org/InStock\"</p><div>>SOLD OUT<</div>"))
        ("u")).fst = true := by
  constructor
  · cases h1 : hasJsonLdInStock html <;> cases h2 : hasBuyButton html <;>
      cases h3 : hasSoldOutText html <;> cases h4 : hasJsonLdOutOfStock html <;>
      simp [check_stock, check_stock_success, h1, h2, h3, h4]
  · rfl

/-- C4: a successfully fetched page showing none of the four availability
signal categories is classified out of stock: the classifier never reports
in stock without positive evidence. -/
theorem c4_fail_safe_default (html product_url : String)
    (h1 : hasJsonLdInStock html = false) (h2 : hasBuyButton html = false)
    (h3 : hasSoldOutText html = false) (h4 : hasJsonLdOutOfStock html = false) :
    (check_stock (.success html) product_url).fst = false := by
  simp [check_stock, check_stock_success, h1, h2, h3, h4]

/-- C4 witness: a plain page carrying no availability signal at all. -/
theorem c4_fail_safe_default_witness :
    hasJsonLdInStock ("<html><title>Widget</title><p>hello</p></html>") = false
    ∧ hasBuyButton ("<html><title>Widget</title><p>hello</p></html>") = false
    ∧ hasSoldOutText ("<html><title>Widget</title><p>hello</p></html>") = false
    ∧ hasJsonLdOutOfStock ("<html><title>Widget</title><p>hello</p></html>") = false
    ∧ (check_stock (.success ("<html><title>Widget</title><p>hello</p></html>")) ("u")).fst
        = false :=
  ⟨by decide, by decide, by decide, by decide,
    c4_fail_safe_default ("<html><title>Widget</title><p>hello</p></html>") ("u")
      (by decide) (by decide) (by decide) (by decide)⟩

/-- C7 counterexample: on a successfully fetched page with no title element
the label is the fixed placeholder Unknown Product, not the label derived
from the URL path segment, contrary to the final clause of the claim. -/
theorem c7_no_title_counterexample :
    (check_stock (.success ("<html><body>no signals here</body></html>"))
        ("https://www.flipkart.com/some-cool-product/p/itm123")).snd
      = "Unknown Product"
    ∧ urlDerivedName ("https://www.flipkart.com/some-cool-product/p/itm123") ("Product")
        = "P"
    ∧ ("Unknown Product" : String) ≠ "P" :=
  ⟨by decide, by decide, by decide⟩

/-- C7 amended: the scrape label prefers the cleaned title; when the cleaned
title is generic it falls back to the span fragment and then to the URL
derived name; when the page has no title element at all the label is the
fixed placeholder Unknown Product rather than a URL derived name.  The two
closing conjuncts exercise the generic-title fallbacks concretely. -/
theorem c7_label_chain (html product_url : String) :
    (check_stock (.success html) product_url).snd
      = (match extractTitle html with
         | none => "Unknown Product"
         | some fullTitle =>
           if isGenericName (cleanTitle fullTitle) then
             match extractSpanName html with
             | some n => n
             | none => urlDerivedName product_url ("Product")
           else cleanTitle fullTitle)
    ∧ (check_stock
        (.success ("<title>Flipkart.com - x</title><span class=\"B_NuCI\"> Gadget X </span>"))
        ("u")).snd = "Gadget X"
    ∧ (check_stock (.success ("<title>Flipkart.com</title>"))
        ("https://x.com/a/cool-gadget/p")).snd = "Cool Gadget" := by
  refine ⟨?_, by decide, by decide⟩
  cases h1 : hasJsonLdInStock html <;> cases h2 : hasBuyButton html <;>
    cases h3 : hasSoldOutText html <;> cases h4 : hasJsonLdOutOfStock html <;>
    simp [check_stock, check_stock_success, scrape_product_name, h1, h2, h3, h4]

/-- C8: for a URL with at least two slash-separated segments and a page with
no extractable title element, the scrape label is still non-empty: label
derivation is total. -/
theorem c8_label_total (html product_url : String)
    (hseg : 2 ≤ (splitOnChar '/' product_url.data).length)
    (htitle : extractTitle html = none) :
    (check_stock (.success html) product_url).snd ≠ "" := by
  have hname : scrape_product_name html product_url = "Unknown Product" := by
    simp [scrape_product_name, htitle]
  have hne : ("Unknown Product" : String) ≠ "" := by decide
  cases h1 : hasJsonLdInStock html <;> cases h2 : hasBuyButton html <;>
    cases h3 : hasSoldOutText html <;> cases h4 : hasJsonLdOutOfStock html <;>
    simp [check_stock, check_stock_success, hname, h1, h2, h3, h4, hne]

/-- C8 witness: a concrete untitled page and two-segment URL. -/
theorem c8_label_total_witness :
    2 ≤ (splitOnChar '/' ("a/b".data)).length
    ∧ extractTitle ("<p>x</p>") = none
    ∧ (check_stock (.success ("<p>x</p>")) ("a/b")).snd ≠ "" :=
  ⟨by decide, by decide, c8_label_total ("<p>x</p>") ("a/b") (by decide) (by decide)⟩

/-- C9: when any of the three mandatory configuration values is absent,
startup resolves to the error exit and the monitor loop is never entered. -/
theorem c9_missing_config_fatal (env : Env)
    (h : env.telegram_token = none ∨ env.chat_id = none ∨ env.product_url = none) :
    mainStartup env = .configErrorExit := by
  obtain ⟨t, c, p, k⟩ := env
  rcases h with h | h | h <;> simp_all [mainStartup, pyTruthy]

/-- C9 witness: a configuration missing the notification credential. -/
theorem c9_missing_config_fatal_witness :
    ((Env.mk none (some ("c")) (some ("u")) none).telegram_token = none
      ∨ (Env.mk none (some ("c")) (some ("u")) none).chat_id = none
      ∨ (Env.mk none (some ("c")) (some ("u")) none).product_url = none)
    ∧ mainStartup (Env.mk none (some ("c")) (some ("u")) none) = .configErrorExit :=
  ⟨Or.inl rfl,
    c9_missing_config_fatal (Env.mk none (some ("c")) (some ("u")) none) (Or.inl rfl)⟩

/-- C10: on an out-of-stock checker result the poll loop logs a failed check
exactly when the label holds the substring Error, so an out-of-stock product
whose genuine name holds Error is reported as a failed check, and no
out-of-stock result ever triggers a notification. -/
theorem c10_error_substring_branch (product_name product_url : String) :
    ((monitor_iteration (false, product_name) product_url = .logCheckFailed product_name)
      ↔ containsL ("Error".data) product_name.data = true)
    ∧ (∀ n u, monitor_iteration (false, product_name) product_url ≠ .sendNotification n u)
    ∧ monitor_iteration (false, "Error Free Cable") product_url
        = .logCheckFailed ("Error Free Cable") := by
  refine ⟨?_, ?_, ?_⟩
  · cases hc : containsL ("Error".data) product_name.data <;>
      simp [monitor_iteration, hc]
  · intro n u
    cases hc : containsL ("Error".data) product_name.data <;>
      simp [monitor_iteration, hc]
  · have hc : containsL ("Error".data) ("Error Free Cable" : String).data = true := by decide
    simp [monitor_iteration, hc]
